import Mathlib

/-!
Verification of the hackerrun Compose-document transformation core
(src/lib/compose.js), the host-address validation of the provision
choreography (src/lib/init.js), and the post-context-switch portion of the
deploy choreography (src/lib/deploy.js), against the natural-language
specification.

JavaScript objects are embedded as association lists in insertion order
(JS object keys are unique and iterate in insertion order).  A field that
may be absent or null in JS is an `Option`; `none` stands for the falsy
cases (absent / null / undefined), `some` for a present object, which in
JS is truthy even when the mapping is empty.  Thrown JS errors are
`Except JSError`; `JSError.typeError` embeds a thrown `TypeError` (a
property access on null or undefined) and `JSError.error` a thrown
`Error`.  Messages follow the source with quote characters dropped.
-/

/-- A thrown JavaScript error: either a `TypeError` raised by the runtime
on a bad property access, or an `Error` constructed by the program. -/
inductive JSError where
  | typeError (msg : String)
  | error (msg : String)
deriving DecidableEq, Repr

/-- The value attached to one network name in the mapping form of a
service-level `networks` field.  The source only ever writes the empty
object `\x7b\x7d` there, so no field is modelled. -/
structure NetOpts where
deriving DecidableEq, Repr

/-- A service-level `networks` field: either a sequence of network names
or a mapping from network names to attachment options. -/
inductive NetworksField where
  | seq (xs : List String)
  | map (kvs : List (String × NetOpts))
deriving DecidableEq, Repr

/-- A service-level `labels` field: either a sequence of `key=value`
strings or a mapping from keys to values. -/
inductive LabelsField where
  | seq (xs : List String)
  | map (kvs : List (String × String))
deriving DecidableEq, Repr

/-- A top-level network definition; the source only reads and writes its
`external` field. -/
structure NetworkDef where
  external : Option Bool := none
deriving DecidableEq, Repr

/-- One entry of the `services` mapping of a Compose document. -/
structure Service where
  image : Option String := none
  labels : Option LabelsField := none
  networks : Option NetworksField := none
  env_file : Option (List String) := none
deriving DecidableEq, Repr

/-- A parsed Compose document: the top-level keys the source touches. -/
structure ComposeData where
  services : Option (List (String × Service)) := none
  networks : Option (List (String × NetworkDef)) := none
deriving DecidableEq, Repr

/-- `ComposeManager.getServices` (compose.js lines 22-28): throws when
`composeData.services` is falsy, otherwise returns `Object.keys`. -/
def getServices (d : ComposeData) : Except JSError (List String) :=
  match d.services with
  | none => .error (.error "No services found in Docker Compose file")
  | some svcs => .ok (svcs.map Prod.fst)

/-- `getServices` as invoked on the raw result of `parseCompose`, which
may be null: in JS, `composeData.services` with `composeData === null`
throws a `TypeError` before the falsiness test runs. -/
def getServicesJS : Option ComposeData → Except JSError (List String)
  | none => .error (.typeError "Cannot read properties of null (reading services)")
  | some d => getServices d

/-- `ComposeManager.parseCompose` (compose.js lines 9-20), with the
external YAML library abstracted as the function `yaml` from file content
to the parse result (`none` embeds the JS `null` the library returns for
an empty or comment-only document): a missing file throws, otherwise the
library result is returned as is, null included. -/
def parseComposeWith (yaml : String → Option ComposeData) (fileExists : Bool)
    (content : String) : Except JSError (Option ComposeData) :=
  if fileExists then .ok (yaml content)
  else .error (.error "Docker Compose file not found")

/-- The five Traefik routing labels of compose.js lines 48-54, in source
order. -/
def traefikLabels (serviceName domain : String) : List String :=
  ["traefik.enable=true",
   "traefik.http.routers." ++ serviceName ++ ".rule=Host(`" ++ domain ++ "`)",
   "traefik.http.routers." ++ serviceName ++ ".entrypoints=websecure",
   "traefik.http.routers." ++ serviceName ++ ".tls.certresolver=letsencrypt",
   "traefik.http.services." ++ serviceName ++ ".loadbalancer.server.port=80"]

/-- Label normalization of compose.js lines 37-45: a missing field becomes
the empty sequence, a mapping becomes `key=value` strings in mapping
order, a sequence is left untouched. -/
def normalizeLabels : Option LabelsField → List String
  | none => []
  | some (.seq xs) => xs
  | some (.map kvs) => kvs.map (fun kv => kv.1 ++ "=" ++ kv.2)

/-- JavaScript property read `obj[name]` on an object embedded as an
association list: the value at the (unique) key, `none` when absent. -/
def jsGet {β : Type} (name : String) : List (String × β) → Option β
  | [] => none
  | kv :: rest => if kv.1 = name then some kv.2 else jsGet name rest

/-- The keyed update `addTraefikLabels` performs on the services mapping:
the named entry gets its labels replaced by `L`, every other entry is
untouched. -/
def setLabelsTo (L : LabelsField) (svcs : List (String × Service)) (name : String) :
    List (String × Service) :=
  svcs.map (fun kv => if kv.1 = name then (kv.1, { kv.2 with labels := some L }) else kv)

/-- `ComposeManager.addTraefikLabels` (compose.js lines 30-60): requires
the service to be present (truthy), normalizes its labels and appends the
five routing labels.  The update is written functionally; the in-place
mutation the source performs is modelled separately at the store level. -/
def addTraefikLabels (d : ComposeData) (serviceName domain : String) :
    Except JSError ComposeData :=
  match d.services with
  | none => .error (.typeError "Cannot read properties of undefined (reading service)")
  | some svcs =>
    match jsGet serviceName svcs with
    | none => .error (.error ("Service " ++ serviceName ++ " not found in Docker Compose file"))
    | some svc =>
      .ok { d with services := some (setLabelsTo
              (.seq (normalizeLabels svc.labels ++ traefikLabels serviceName domain))
              svcs serviceName) }

/-- The per-service body of `ComposeManager.addTraefikNetwork`
(compose.js lines 75-87): a missing `networks` field becomes a fresh
sequence and `traefik` is pushed; a sequence gets `traefik` pushed unless
already present; any other object gets a `traefik` key assigned — the
mapping form is NOT converted to a sequence. -/
def addNetToService (svc : Service) : Service :=
  match svc.networks with
  | none => { svc with networks := some (.seq ["traefik"]) }
  | some (.seq xs) =>
      if xs.contains "traefik" then svc
      else { svc with networks := some (.seq (xs ++ ["traefik"])) }
  | some (.map kvs) =>
      if (jsGet "traefik" kvs).isSome then
        { svc with networks := some (.map (kvs.map (fun kv =>
            if kv.1 = "traefik" then (kv.1, {}) else kv))) }
      else { svc with networks := some (.map (kvs ++ [("traefik", {})])) }

/-- `ComposeManager.addTraefikNetwork` (compose.js lines 62-90): ensures
the top-level `traefik` network (external) and runs `addNetToService`
over every service; `Object.keys` of a falsy `services` throws. -/
def addTraefikNetwork (d : ComposeData) : Except JSError ComposeData :=
  let nets := match d.networks with
    | none => [("traefik", ({ external := some true } : NetworkDef))]
    | some ns =>
        if (jsGet "traefik" ns).isSome then ns
        else ns ++ [("traefik", ({ external := some true } : NetworkDef))]
  match d.services with
  | none => .error (.typeError "Cannot convert undefined or null to object")
  | some svcs =>
      .ok { d with networks := some nets,
                   services := some (svcs.map (fun kv => (kv.1, addNetToService kv.2))) }

/-- `ComposeManager.addEnvFile` (compose.js lines 92-102): sets every
service env_file to the single-element sequence holding the chosen file. -/
def addEnvFile (d : ComposeData) (envFileName : String) : Except JSError ComposeData :=
  match d.services with
  | none => .error (.typeError "Cannot convert undefined or null to object")
  | some svcs =>
      .ok { d with services := some (svcs.map (fun kv =>
              (kv.1, { kv.2 with env_file := some [envFileName] }))) }

/-- The labels of one service of a document, as read by the statements
below. -/
def serviceLabels (d : ComposeData) (name : String) : Option LabelsField :=
  match d.services with
  | none => none
  | some svcs =>
    match jsGet name svcs with
    | none => none
    | some svc => svc.labels

/-- The networks field of one service of a document. -/
def serviceNetworks (d : ComposeData) (name : String) : Option NetworksField :=
  match d.services with
  | none => none
  | some svcs =>
    match jsGet name svcs with
    | none => none
    | some svc => svc.networks

/-- Whether a networks field holds the `traefik` network, as a sequence
element or as a mapping key. -/
def networksHasTraefik : Option NetworksField → Bool
  | some (.seq xs) => xs.contains "traefik"
  | some (.map kvs) => (jsGet "traefik" kvs).isSome
  | none => false

/-- Whether a networks field is in sequence form. -/
def networksIsSeq : Option NetworksField → Bool
  | some (.seq _) => true
  | _ => false

-- Helper lemmas on keyed updates of association lists.

theorem jsGet_setLabelsTo (L : LabelsField) (svcs : List (String × Service)) (name : String) :
    jsGet name (setLabelsTo L svcs name)
      = (jsGet name svcs).map (fun v => { v with labels := some L }) := by
  induction svcs with
  | nil => rfl
  | cons kv rest ih =>
    obtain ⟨k, v⟩ := kv
    by_cases h : k = name
    · subst h
      simp [setLabelsTo, jsGet]
    · simpa [setLabelsTo, jsGet, h] using ih

theorem keys_setLabelsTo (L : LabelsField) (svcs : List (String × Service)) (name : String) :
    (setLabelsTo L svcs name).map Prod.fst = svcs.map Prod.fst := by
  induction svcs with
  | nil => rfl
  | cons kv rest ih =>
    by_cases h : kv.1 = name <;>
      simpa [setLabelsTo, h] using ih

theorem addTraefikLabels_ok_elim {d : ComposeData} {name dom : String}
    {d2 : ComposeData} (h : addTraefikLabels d name dom = .ok d2) :
    ∃ svcs svc, d.services = some svcs ∧ jsGet name svcs = some svc ∧
      d2 = { d with services := some (setLabelsTo
              (.seq (normalizeLabels svc.labels ++ traefikLabels name dom)) svcs name) } := by
  unfold addTraefikLabels at h
  split at h
  · exact absurd h (by simp)
  next svcs hs =>
    split at h
    · exact absurd h (by simp)
    next svc hl =>
      exact ⟨svcs, svc, hs, hl, by simpa using h.symm⟩

theorem serviceLabels_after_addTraefikLabels {d : ComposeData} {name dom : String}
    {d2 : ComposeData} (h : addTraefikLabels d name dom = .ok d2) :
    ∃ svcs svc, d.services = some svcs ∧ jsGet name svcs = some svc ∧
      serviceLabels d2 name
        = some (.seq (normalizeLabels svc.labels ++ traefikLabels name dom)) := by
  obtain ⟨svcs, svc, hs, hl, hd2⟩ := addTraefikLabels_ok_elim h
  refine ⟨svcs, svc, hs, hl, ?_⟩
  subst hd2
  simp [serviceLabels, jsGet_setLabelsTo, hl]

-- Concrete documents used by witnesses and counterexamples.

/-- The scenario document of the spec: one service `web` with image `x`. -/
def scenarioDoc : ComposeData := { services := some [("web", { image := some "x" })] }

/-- C1: for every service with no prior labels, `addTraefikLabels`
(injectRoutingLabels) succeeds and leaves that service with exactly the
five routing labels, in the fixed source order. -/
theorem c1_injectRoutingLabels_fresh (d : ComposeData) (svcs : List (String × Service))
    (name dom : String) (svc : Service)
    (hs : d.services = some svcs) (hl : jsGet name svcs = some svc)
    (hfresh : svc.labels = none) :
    ∃ d2, addTraefikLabels d name dom = .ok d2 ∧
      serviceLabels d2 name = some (.seq
        ["traefik.enable=true",
         "traefik.http.routers." ++ name ++ ".rule=Host(`" ++ dom ++ "`)",
         "traefik.http.routers." ++ name ++ ".entrypoints=websecure",
         "traefik.http.routers." ++ name ++ ".tls.certresolver=letsencrypt",
         "traefik.http.services." ++ name ++ ".loadbalancer.server.port=80"]) := by
  refine ⟨{ d with services := some (setLabelsTo
      (.seq (normalizeLabels svc.labels ++ traefikLabels name dom)) svcs name) }, ?_, ?_⟩
  · simp [addTraefikLabels, hs, hl]
  · simp [serviceLabels, jsGet_setLabelsTo, hl, hfresh, normalizeLabels, traefikLabels]

/-- Witness for C1 at the scenario document with the scenario domain. -/
theorem c1_witness :
    ∃ d2, addTraefikLabels scenarioDoc "web" "web.1.2.3.4.sslip.io" = .ok d2 ∧
      serviceLabels d2 "web" = some (.seq
        ["traefik.enable=true",
         "traefik.http.routers.web.rule=Host(`web.1.2.3.4.sslip.io`)",
         "traefik.http.routers.web.entrypoints=websecure",
         "traefik.http.routers.web.tls.certresolver=letsencrypt",
         "traefik.http.services.web.loadbalancer.server.port=80"]) := by
  have h := c1_injectRoutingLabels_fresh scenarioDoc [("web", { image := some "x" })]
    "web" "web.1.2.3.4.sslip.io" { image := some "x" } rfl (by decide) rfl
  simpa using h

/-- C2 counterexample: a document whose `services` mapping is present but
empty is not rejected — `getServices` returns the empty sequence instead
of the promised ValidationError. -/
theorem c2_counterexample :
    getServices { services := some [] } = .ok [] ∧
    getServices { services := some [] }
      ≠ .error (.error "No services found in Docker Compose file") := by
  constructor
  · rfl
  · intro h
    exact Except.noConfusion h

/-- C2 amended: `getServices` returns the service names in document order
whenever the `services` key holds a mapping (even an empty one), and
fails with the ValidationError only when the key is absent or null. -/
theorem c2_getServices_amended (d : ComposeData) :
    (∀ svcs, d.services = some svcs → getServices d = .ok (svcs.map Prod.fst)) ∧
    (d.services = none →
      getServices d = .error (.error "No services found in Docker Compose file")) := by
  constructor
  · intro svcs hs; simp [getServices, hs]
  · intro hs; simp [getServices, hs]

/-- Witness for C2 on a two-service document and on a document with no
services key. -/
theorem c2_witness :
    getServices { services := some [("web", {}), ("db", {})] } = .ok ["web", "db"] ∧
    getServices { services := none }
      = .error (.error "No services found in Docker Compose file") :=
  ⟨(c2_getServices_amended { services := some [("web", {}), ("db", {})] }).1
      [("web", {}), ("db", {})] rfl,
    (c2_getServices_amended { services := none }).2 rfl⟩

/-- C8: invoking `addTraefikLabels` a second time with the same service
and domain appends a second, duplicate copy of the five routing labels:
the labels after two runs are the labels after one run with the label set
appended once more. -/
theorem c8_injectRoutingLabels_twice (d : ComposeData) (name dom : String)
    (d1 d2 : ComposeData)
    (h1 : addTraefikLabels d name dom = .ok d1)
    (h2 : addTraefikLabels d1 name dom = .ok d2) :
    ∃ ls, serviceLabels d1 name = some (.seq ls) ∧
      serviceLabels d2 name = some (.seq (ls ++ traefikLabels name dom)) := by
  obtain ⟨svcs1, svc1, _, _, hlab1⟩ := serviceLabels_after_addTraefikLabels h1
  obtain ⟨svcs2, svc2, hs2, hl2, hlab2⟩ := serviceLabels_after_addTraefikLabels h2
  refine ⟨normalizeLabels svc1.labels ++ traefikLabels name dom, hlab1, ?_⟩
  have e : serviceLabels d1 name = svc2.labels := by simp [serviceLabels, hs2, hl2]
  rw [hlab1] at e
  rw [hlab2, ← e]
  simp [normalizeLabels]

/-- The `web` service after one label injection with domain `d`. -/
def scenarioSvcOnce : Service :=
  { image := some "x", labels := some (.seq (traefikLabels "web" "d")) }

/-- The scenario document after one label injection for `web` with
domain `d`. -/
def scenarioDocOnce : ComposeData := { services := some [("web", scenarioSvcOnce)] }

/-- The `web` service after two label injections with domain `d`. -/
def scenarioSvcTwice : Service :=
  { image := some "x",
    labels := some (.seq (traefikLabels "web" "d" ++ traefikLabels "web" "d")) }

/-- The scenario document after two label injections for `web` with
domain `d`. -/
def scenarioDocTwice : ComposeData := { services := some [("web", scenarioSvcTwice)] }

/-- Witness for C8: two concrete runs on the scenario document. -/
theorem c8_witness :
    ∃ ls, serviceLabels scenarioDocOnce "web" = some (.seq ls) ∧
      serviceLabels scenarioDocTwice "web"
        = some (.seq (ls ++ traefikLabels "web" "d")) :=
  c8_injectRoutingLabels_twice scenarioDoc "web" "d" scenarioDocOnce scenarioDocTwice
    rfl rfl

-- Helper lemmas for the network transform.

theorem jsGet_overwriteTraefik (kvs : List (String × NetOpts)) :
    (jsGet "traefik" (kvs.map (fun kv =>
        if kv.1 = "traefik" then (kv.1, ({} : NetOpts)) else kv))).isSome
      = (jsGet "traefik" kvs).isSome := by
  induction kvs with
  | nil => rfl
  | cons kv rest ih =>
    by_cases h : kv.1 = "traefik" <;> simp [jsGet, h, ih]

theorem jsGet_append_self {β : Type} (k : String) (v : β) (l : List (String × β)) :
    (jsGet k (l ++ [(k, v)])).isSome = true := by
  induction l with
  | nil => simp [jsGet]
  | cons kv rest ih =>
    by_cases h : kv.1 = k <;> simp [jsGet, h, ih]

theorem networksHasTraefik_addNetToService (svc : Service) :
    networksHasTraefik (addNetToService svc).networks = true := by
  unfold addNetToService
  cases h : svc.networks with
  | none => simp [networksHasTraefik]
  | some nf =>
    cases nf with
    | seq xs =>
      by_cases hc : ("traefik" : String) ∈ xs
      · simp [hc, networksHasTraefik, h]
      · simp [hc, networksHasTraefik]
    | map kvs =>
      by_cases hk : (jsGet "traefik" kvs).isSome
      · simp [hk, networksHasTraefik, jsGet_overwriteTraefik]
      · simp [hk, networksHasTraefik, jsGet_append_self]

theorem keys_map_addNet (svcs : List (String × Service)) :
    (svcs.map (fun kv => (kv.1, addNetToService kv.2))).map Prod.fst
      = svcs.map Prod.fst := by
  induction svcs with
  | nil => rfl
  | cons kv rest ih => simp [ih]

-- Concrete documents for the C4 statements.

/-- A service whose networks field is given in mapping form. -/
def mapNetSvc : Service := { image := some "x", networks := some (.map [("backnet", {})]) }

/-- A document holding `mapNetSvc` under the name `web`. -/
def mapNetDoc : ComposeData := { services := some [("web", mapNetSvc)] }

/-- `mapNetSvc` after `addTraefikNetwork`: the `traefik` key was added but
the field is still a mapping. -/
def mapNetSvcAfter : Service :=
  { image := some "x", networks := some (.map [("backnet", {}), ("traefik", {})]) }

/-- `mapNetDoc` after `addTraefikNetwork`. -/
def mapNetDocAfter : ComposeData :=
  { services := some [("web", mapNetSvcAfter)],
    networks := some [("traefik", { external := some true })] }

/-- C4 counterexample: on a service whose networks are given as a mapping,
`addTraefikNetwork` leaves the field in mapping form — it is not
normalized to a sequence, so the networks value after the call is not a
sequence. -/
theorem c4_counterexample :
    addTraefikNetwork mapNetDoc = .ok mapNetDocAfter ∧
    networksIsSeq (serviceNetworks mapNetDocAfter "web") = false :=
  ⟨rfl, rfl⟩

/-- C4 amended: `addTraefikNetwork` keeps the service names and leaves
every service with the `traefik` network present — as a new element of a
sequence-form field (created if absent), or as a new key of a
mapping-form field, which stays a mapping and is never normalized to a
sequence. -/
theorem c4_attachSharedNetwork_amended :
    (∀ (d : ComposeData) (svcs : List (String × Service)) (d2 : ComposeData),
      d.services = some svcs → addTraefikNetwork d = .ok d2 →
      ∃ svcs2, d2.services = some svcs2 ∧
        svcs2.map Prod.fst = svcs.map Prod.fst ∧
        ∀ kv ∈ svcs2, networksHasTraefik kv.2.networks = true) ∧
    (∀ (svc : Service) (kvs : List (String × NetOpts)),
      svc.networks = some (.map kvs) →
      ∃ kvs2, (addNetToService svc).networks = some (.map kvs2)) := by
  constructor
  · intro d svcs d2 hs h
    simp only [addTraefikNetwork, hs] at h
    obtain rfl : _ = d2 := Except.ok.inj h
    refine ⟨svcs.map (fun kv => (kv.1, addNetToService kv.2)), rfl, keys_map_addNet svcs, ?_⟩
    intro kv hkv
    obtain ⟨kv0, _, rfl⟩ := List.mem_map.mp hkv
    exact networksHasTraefik_addNetToService kv0.2
  · intro svc kvs hnet
    unfold addNetToService
    rw [hnet]
    by_cases hk : (jsGet "traefik" kvs).isSome
    · exact ⟨kvs.map (fun kv => if kv.1 = "traefik" then (kv.1, NetOpts.mk) else kv),
        by simp [hk]⟩
    · exact ⟨kvs ++ [("traefik", NetOpts.mk)], by simp [hk]⟩

/-- A document exercising all three network-field shapes. -/
def threeShapeDoc : ComposeData :=
  { services := some [("a", {}),
      ("b", { networks := some (.seq ["x"]) }),
      ("c", { networks := some (.map [("m", {})]) })] }

/-- `threeShapeDoc` after `addTraefikNetwork`. -/
def threeShapeDocAfter : ComposeData :=
  { services := some [("a", { networks := some (.seq ["traefik"]) }),
      ("b", { networks := some (.seq ["x", "traefik"]) }),
      ("c", { networks := some (.map [("m", {}), ("traefik", {})]) })],
    networks := some [("traefik", { external := some true })] }

/-- Witness for C4 on a document with all three network-field shapes. -/
theorem c4_witness :
    (∃ svcs2, threeShapeDocAfter.services = some svcs2 ∧
      svcs2.map Prod.fst = ["a", "b", "c"] ∧
      ∀ kv ∈ svcs2, networksHasTraefik kv.2.networks = true) ∧
    (∃ kvs2, (addNetToService mapNetSvc).networks = some (.map kvs2)) :=
  ⟨c4_attachSharedNetwork_amended.1 threeShapeDoc
      [("a", {}), ("b", { networks := some (.seq ["x"]) }),
       ("c", { networks := some (.map [("m", {})]) })]
      threeShapeDocAfter rfl rfl,
   c4_attachSharedNetwork_amended.2 mapNetSvc [("backnet", {})] rfl⟩

/-!
Archive Builder (`ComposeManager.createTarArchive`, compose.js lines
113-155).  The filter logic is pure and is embedded over character lists;
`String.data` converts the literals.  The ignore-rule pattern language is
the one the source produces by `pattern.replace` of every star with
dot-star and reading the result as a JavaScript regular expression: a
star stands for any run of characters, a dot for any single character,
and the remaining characters of the rules in play are literals (none of
them is a further regex metacharacter).
-/

/-- One token of a compiled ignore rule. -/
inductive RTok where
  | anyRun
  | anyChar
  | lit (c : Char)
deriving DecidableEq, Repr

/-- compose.js line 145: every star of the rule becomes any-run, a dot is
the regex any-character wildcard, anything else matches itself. -/
def compileRule (r : List Char) : List RTok :=
  r.map (fun c => if c = '*' then .anyRun else if c = '.' then .anyChar else .lit c)

/-- Full match of a compiled rule against a character list.  An any-run
token matches an arbitrary prefix, so the rest of the rule must match
some suffix. -/
def rmatch : List RTok → List Char → Bool
  | [], s => s.isEmpty
  | RTok.lit c :: p, s =>
      match s with
      | [] => false
      | d :: s2 => c == d && rmatch p s2
  | RTok.anyChar :: p, s =>
      match s with
      | [] => false
      | _ :: s2 => rmatch p s2
  | RTok.anyRun :: p, s => s.tails.any (fun s2 => rmatch p s2)

/-- JavaScript `regex.test`: an unanchored pattern matches if some
contiguous substring matches, i.e. the pattern padded with any-run on
both sides matches the whole input. -/
def rtest (p : List RTok) (s : List Char) : Bool :=
  rmatch (RTok.anyRun :: (p ++ [RTok.anyRun])) s

/-- `hay.startsWith needle` on character lists. -/
def listStartsWith : List Char → List Char → Bool
  | _, [] => true
  | [], _ :: _ => false
  | h :: t, n :: ns => h == n && listStartsWith t ns

/-- JavaScript `hay.includes(needle)`: the needle occurs as a contiguous
substring of the hay. -/
def jsIncludes (hay needle : List Char) : Bool :=
  match hay with
  | [] => needle.isEmpty
  | _ :: t => listStartsWith hay needle || jsIncludes t needle

/-- One step of the `ignore.some` test of compose.js lines 142-149: a
rule containing a star is compiled and run as a regex test, any other
rule matches by substring containment. -/
def ruleMatches (pattern path : List Char) : Bool :=
  if pattern.contains '*' then rtest (compileRule pattern) path
  else jsIncludes path pattern

/-- The tar entry filter of compose.js lines 137-150: the deployment
archive filename itself is always rejected; otherwise a path is kept
exactly when no ignore rule matches it. -/
def tarFilter (ignore : List (List Char)) (path : List Char) : Bool :=
  if path = ("hackerrun-deploy.tar.gz").data then false
  else !(ignore.any (fun pattern => ruleMatches pattern path))

/-- Gitignore parsing of compose.js lines 119-123: split on newlines,
trim each line, keep non-empty lines not starting with a hash.
`Char.isWhitespace` stands in for the JavaScript trim character class. -/
def parseGitignore (content : String) : List (List Char) :=
  ((content.data.splitOn '\n').map (fun l =>
      ((l.dropWhile Char.isWhitespace).reverse.dropWhile Char.isWhitespace).reverse)).filter
    (fun l => !l.isEmpty && !listStartsWith l ['#'])

/-- The built-in ignore rules of compose.js line 114. -/
def defaultIgnore : List (List Char) :=
  [("node_modules").data, (".git").data, ("*.log").data, (".DS_Store").data]

/-- The ignore set of compose.js lines 114-131: defaults, then the
gitignore rules when a gitignore is given, then every rule literally
equal to `.env` is removed. -/
def buildIgnore (gitignoreContent : Option String) : List (List Char) :=
  (match gitignoreContent with
   | some content => defaultIgnore ++ parseGitignore content
   | none => defaultIgnore).filter (fun r => !(r = (".env").data))

/-- C5: whatever the ignore-rule set, the archive filter rejects the
archive output filename itself, so the produced archive never contains
its own output file even when that file sits inside the source
directory. -/
theorem c5_archive_excludes_own_output (ignore : List (List Char)) :
    tarFilter ignore ("hackerrun-deploy.tar.gz").data = false := rfl

/-- C6 counterexample: a gitignore consisting of the single rule
`.env*` makes the filter reject the path `.env` — the file literally
named `.env` is excluded despite the force-removal of the literal `.env`
rule, so the filter does not admit `.env` under every ignore-rule
content. -/
theorem c6_counterexample :
    tarFilter (buildIgnore (some ".env*")) (".env").data = false := by decide

/-- C6 amended: the force-include only removes rules literally equal to
`.env` from the ignore set — no built ignore set ever contains the
literal `.env` rule, and with the typical gitignore consisting of
exactly the line `.env` the file named `.env` is admitted; rules that
match `.env` merely by substring or wildcard are not removed and can
still exclude it. -/
theorem c6_env_force_include_amended :
    (∀ content : Option String, (".env").data ∉ buildIgnore content) ∧
    tarFilter (buildIgnore (some ".env")) (".env").data = true := by
  constructor
  · intro content hmem
    have h := (List.mem_filter.mp hmem).2
    simp at h
  · decide

/-!
Host-address validation of the provision choreography (init.js lines
73-79).  The validate callback tests the input against the regular
expression of four dot-separated groups of one to three ASCII digits.
Since a digit group can never contain the separator, the regex holds of a
string exactly when splitting its characters on dots yields four such
groups, which is how the test is embedded.
-/

/-- The group shape of the address regex: one to three ASCII digits. -/
def digitGroupB (p : List Char) : Bool :=
  !p.isEmpty && decide (p.length ≤ 3) && p.all Char.isDigit

/-- The vpsIp validate callback of init.js lines 73-79: the dotted-quad
shape test (four dot-separated groups of one to three digits, with no
range check on the group values). -/
def vpsIpValidate (s : String) : Bool :=
  let parts := s.data.splitOn '.'
  parts.length == 4 && parts.all digitGroupB

/-- A group of one to three ASCII digits, as the spec words it. -/
def digitGroup (p : List Char) : Prop :=
  p ≠ [] ∧ p.length ≤ 3 ∧ ∀ c ∈ p, c.isDigit = true

/-- The strict dotted-quad shape the spec describes, stated as an
explicit decomposition of the input: four dot-separated groups of one to
three digits. -/
def strictDottedQuad (s : String) : Prop :=
  ∃ a b c d : List Char, digitGroup a ∧ digitGroup b ∧ digitGroup c ∧ digitGroup d ∧
    s.data = a ++ '.' :: (b ++ '.' :: (c ++ '.' :: d))

theorem digitGroupB_iff {p : List Char} : digitGroupB p = true ↔ digitGroup p := by
  simp [digitGroupB, digitGroup, List.isEmpty_iff, List.all_eq_true, and_assoc]

theorem digit_group_no_dot {p : List Char} (hp : ∀ c ∈ p, c.isDigit = true) :
    ∀ c ∈ p, ¬((c == '.') = true) := by
  intro c hc hb
  have hcd : c = '.' := eq_of_beq hb
  subst hcd
  exact absurd (hp _ hc) (by decide)

theorem exists_four_of_length_eq {α : Type} {l : List α} (h : l.length = 4) :
    ∃ a b c d, l = [a, b, c, d] := by
  rcases l with _ | ⟨a, _ | ⟨b, _ | ⟨c, _ | ⟨d, _ | ⟨e, t⟩⟩⟩⟩⟩ <;> simp at h
  exact ⟨a, b, c, d, rfl⟩

theorem intercalate_four {α : Type} (x : α) (a b c d : List α) :
    List.intercalate [x] [a, b, c, d] = a ++ x :: (b ++ x :: (c ++ x :: d)) := by
  simp [List.intercalate, List.intersperse]

/-- C3 counterexample: the address `999.1.1.1` passes the validation — it
is not rejected, because the regex checks only the dotted-quad shape and
never the numeric range of a group. -/
theorem c3_counterexample : vpsIpValidate "999.1.1.1" = true := by decide

/-- C3 amended: the host-address validation accepts exactly the strings
of strict dotted-quad shape — four dot-separated groups of one to three
ASCII digits, with no range check on the groups (so `999.1.1.1` is
accepted, not rejected). -/
theorem c3_address_validation_amended (s : String) :
    vpsIpValidate s = true ↔ strictDottedQuad s := by
  constructor
  · intro h
    have h2 : (s.data.splitOn '.').length = 4 ∧
        ∀ p ∈ s.data.splitOn '.', digitGroupB p = true := by
      simpa [vpsIpValidate, List.all_eq_true] using h
    obtain ⟨hlen, hall⟩ := h2
    obtain ⟨a, b, c, d, hq⟩ := exists_four_of_length_eq hlen
    have h1 := List.intercalate_splitOn s.data '.'
    rw [hq] at h1 hall
    rw [intercalate_four] at h1
    refine ⟨a, b, c, d, ?_, ?_, ?_, ?_, h1.symm⟩ <;>
      apply digitGroupB_iff.mp <;> apply hall <;> simp
  · rintro ⟨a, b, c, d, ha, hb, hc, hd, hdata⟩
    have e : (a ++ '.' :: (b ++ '.' :: (c ++ '.' :: d))).splitOn '.' = [a, b, c, d] := by
      simp only [List.splitOn]
      rw [List.splitOnP_first _ _ (digit_group_no_dot ha.2.2) '.' (by decide),
          List.splitOnP_first _ _ (digit_group_no_dot hb.2.2) '.' (by decide),
          List.splitOnP_first _ _ (digit_group_no_dot hc.2.2) '.' (by decide),
          List.splitOnP_eq_single _ _ (digit_group_no_dot hd.2.2)]
    simp [vpsIpValidate, hdata, e, List.all_eq_true, digitGroupB_iff, ha, hb, hc, hd]

/-!
Deploy choreography after the context switch (deploy.js lines 229-288).
The sequence is entered only when the switch to the VPS context succeeded
(lines 209-226; on a switch failure the process exits directly and no
restore is needed), with `originalContext` captured beforehand (line
211).  External command outcomes are oracles; the model records the
actions attempted, in order, and the resulting exit status.
-/

/-- An observable action of the post-switch deploy sequence. -/
inductive DeployEv where
  | composeDown
  | composeUp
  | useContext (name : String)
  | warnRestoreFailed
  | persistRecord
deriving DecidableEq, Repr

/-- The outcome of the post-switch deploy sequence: the actions attempted
in order, and the process exit status (0 for the normal return). -/
structure DeployOutcome where
  events : List DeployEv
  exitCode : Nat
deriving DecidableEq, Repr

/-- deploy.js lines 229-288: a tear-down of any previous stack is
attempted with failure swallowed (`downOk` does not influence the rest),
then the bring-up; on bring-up failure the restore of the original
context is attempted (its own failure downgraded to a warning) and the
process exits with status 1; on success the restore is attempted (failure
downgraded to a warning), the deployment record is persisted and the
command returns normally. -/
def deployAfterSwitch (originalContext : String) (downOk upOk restoreOk : Bool) :
    DeployOutcome :=
  let pre := [DeployEv.composeDown, DeployEv.composeUp]
  let restoreEvs := DeployEv.useContext originalContext ::
    (if restoreOk then [] else [DeployEv.warnRestoreFailed])
  if upOk then
    { events := pre ++ restoreEvs ++ [DeployEv.persistRecord], exitCode := 0 }
  else
    { events := pre ++ restoreEvs, exitCode := 1 }

/-- C7: on every exit path of the post-switch deploy sequence — whatever
the outcomes of the tear-down, the bring-up and the restore itself — a
restore of the pre-deploy context is attempted before control returns,
and the process exits with status 1 exactly when the bring-up failed. -/
theorem c7_deploy_restores_context (originalContext : String)
    (downOk upOk restoreOk : Bool) :
    DeployEv.useContext originalContext
        ∈ (deployAfterSwitch originalContext downOk upOk restoreOk).events ∧
    (deployAfterSwitch originalContext downOk upOk restoreOk).exitCode
        = (if upOk then 0 else 1) := by
  cases upOk <;> cases restoreOk <;> simp [deployAfterSwitch]

/-!
In-place mutation of the document objects.  The ComposeManager transform
functions mutate the object passed to them and return the same object;
deployCommand (deploy.js lines 101-129) therefore works on a JSON deep
clone of the parsed document.  Live objects are modelled by a store of
document values; a reference is an index into the store, and an in-place
call updates the referent.
-/

/-- A store of live document objects. -/
abbrev Store := List ComposeData

/-- Run a document transform in place on the referent of `r`: the object
read through `r` afterwards holds the transformed value.  (A dangling
reference cannot arise in the modelled program.) -/
def storeUpdate (st : Store) (r : Nat) (f : ComposeData → Except JSError ComposeData) :
    Except JSError Store :=
  match st.get? r with
  | none => .error (.typeError "Cannot read properties of undefined")
  | some d => (f d).map (fun d2 => st.set r d2)

/-- `addTraefikLabels` called on the object referenced by `r`
(deploy.js line 106). -/
def addTraefikLabelsRef (st : Store) (r : Nat) (name dom : String) :
    Except JSError Store :=
  storeUpdate st r (fun d => addTraefikLabels d name dom)

/-- `addEnvFile` called on the object referenced by `r`
(deploy.js line 121). -/
def addEnvFileRef (st : Store) (r : Nat) (f : String) : Except JSError Store :=
  storeUpdate st r (fun d => addEnvFile d f)

/-- `addTraefikNetwork` called on the object referenced by `r`
(deploy.js line 125). -/
def addTraefikNetworkRef (st : Store) (r : Nat) : Except JSError Store :=
  storeUpdate st r addTraefikNetwork

/-- The port-label rewrite of deploy.js lines 109-117: find the first
label containing `loadbalancer.server.port=` in the selected service and
replace it in place; when nothing is found nothing changes.  The branches
for a missing service or non-sequence labels are unreachable in the
pipeline (the labels are a sequence right after injection) and leave the
document unchanged. -/
def overridePortLabel (d : ComposeData) (serviceName customPort : String) : ComposeData :=
  match d.services with
  | none => d
  | some svcs =>
    match jsGet serviceName svcs with
    | none => d
    | some svc =>
      match svc.labels with
      | some (.seq ls) =>
        match ls.findIdx? (fun l => jsIncludes l.data ("loadbalancer.server.port=").data) with
        | none => d
        | some i =>
          { d with services := some (setLabelsTo (.seq (ls.set i
              ("traefik.http.services." ++ serviceName ++ ".loadbalancer.server.port="
                ++ customPort))) svcs serviceName) }
      | _ => d

/-- The port-label rewrite performed in place on the referent of `r`. -/
def overridePortLabelRef (st : Store) (r : Nat) (serviceName customPort : String) : Store :=
  match st.get? r with
  | none => st
  | some d => st.set r (overridePortLabel d serviceName customPort)

/-- The transform phase of deployCommand (deploy.js lines 101-129):
clone the parsed document (JSON round trip — a fresh object holding an
equal value), inject the routing labels into the clone, rewrite the port
label when a non-default port was chosen, set the env file when one was
selected, attach the traefik network.  Returns the store and the
reference of the derived document. -/
def deployTransformStore (st : Store) (r : Nat) (selectedService domain customPort : String)
    (selectedEnvFile : Option String) : Except JSError (Store × Nat) :=
  match st.get? r with
  | none => .error (.typeError "Cannot read properties of undefined")
  | some orig =>
    let r2 := st.length
    let st2 := st ++ [orig]
    match addTraefikLabelsRef st2 r2 selectedService domain with
    | .error e => .error e
    | .ok st3 =>
      let st4 := if customPort ≠ "80" then overridePortLabelRef st3 r2 selectedService customPort
                 else st3
      match (match selectedEnvFile with
             | some f => addEnvFileRef st4 r2 f
             | none => .ok st4) with
      | .error e => .error e
      | .ok st5 =>
        match addTraefikNetworkRef st5 r2 with
        | .error e => .error e
        | .ok st6 => .ok (st6, r2)

theorem storeUpdate_get?_ne {st : Store} {r2 : Nat} {f : ComposeData → Except JSError ComposeData}
    {st2 : Store} (h : storeUpdate st r2 f = .ok st2) {r : Nat} (hne : r ≠ r2) :
    st2.get? r = st.get? r := by
  unfold storeUpdate at h
  split at h
  · exact Except.noConfusion h
  next d hd =>
    cases hf : f d with
    | error e => rw [hf] at h; exact Except.noConfusion h
    | ok d2 =>
      rw [hf] at h
      obtain rfl : st.set r2 d2 = st2 := Except.ok.inj h
      exact List.get?_set_ne d2 st (Ne.symm hne)

theorem overridePortLabelRef_get?_ne (st : Store) (r2 : Nat) (svc port : String)
    {r : Nat} (hne : r ≠ r2) :
    (overridePortLabelRef st r2 svc port).get? r = st.get? r := by
  unfold overridePortLabelRef
  split
  · rfl
  · exact List.get?_set_ne _ st (Ne.symm hne)

theorem addTraefikLabelsRef_get?_ne {st st2 : Store} {r2 : Nat} {name dom : String}
    (h : addTraefikLabelsRef st r2 name dom = .ok st2) {r : Nat} (hne : r ≠ r2) :
    st2.get? r = st.get? r :=
  storeUpdate_get?_ne h hne

theorem addEnvFileRef_get?_ne {st st2 : Store} {r2 : Nat} {f : String}
    (h : addEnvFileRef st r2 f = .ok st2) {r : Nat} (hne : r ≠ r2) :
    st2.get? r = st.get? r :=
  storeUpdate_get?_ne h hne

theorem addTraefikNetworkRef_get?_ne {st st2 : Store} {r2 : Nat}
    (h : addTraefikNetworkRef st r2 = .ok st2) {r : Nat} (hne : r ≠ r2) :
    st2.get? r = st.get? r :=
  storeUpdate_get?_ne h hne

/-- C9 counterexample: the transforms are not pure over the document
passed to them — after calling `addTraefikLabels` on the object a
reference points at, that same reference shows a different value, so the
document object passed in does not retain its prior value. -/
theorem c9_counterexample :
    addTraefikLabelsRef [scenarioDoc] 0 "web" "d" = .ok [scenarioDocOnce] ∧
    scenarioDocOnce ≠ scenarioDoc := by
  exact ⟨rfl, by decide⟩

/-- C9 amended: the transforms mutate the document whose reference they
are handed (the referent afterwards holds the transformed value), but
`deployCommand` hands them a JSON deep clone of the parsed document, so
across the whole transform phase the original parsed document retains
its prior value and the derived document lives at a distinct
reference. -/
theorem c9_transforms_mutate_clone_protects :
    (∀ (st : Store) (r : Nat) (name dom : String) (st2 : Store),
      addTraefikLabelsRef st r name dom = .ok st2 →
      ∃ d d2, st.get? r = some d ∧ addTraefikLabels d name dom = .ok d2 ∧
        st2.get? r = some d2) ∧
    (∀ (st : Store) (r : Nat) (orig : ComposeData) (svc dom port : String)
        (envFile : Option String) (st2 : Store) (r2 : Nat),
      st.get? r = some orig →
      deployTransformStore st r svc dom port envFile = .ok (st2, r2) →
      st2.get? r = some orig ∧ r2 ≠ r) := by
  constructor
  · intro st r name dom st2 h
    unfold addTraefikLabelsRef storeUpdate at h
    split at h
    · exact Except.noConfusion h
    next d hd =>
      cases hf : addTraefikLabels d name dom with
      | error e =>
        rw [show ((fun d => addTraefikLabels d name dom) d) = .error e from hf] at h
        exact Except.noConfusion h
      | ok d2 =>
        rw [show ((fun d => addTraefikLabels d name dom) d) = .ok d2 from hf] at h
        obtain rfl : st.set r d2 = st2 := Except.ok.inj h
        have hr : r < st.length := (List.get?_eq_some.mp hd).1
        exact ⟨d, d2, hd, hf, List.get?_set_eq_of_lt d2 hr⟩
  · intro st r orig svc dom port envFile st2 r2 hget h
    have hr : r < st.length := (List.get?_eq_some.mp hget).1
    have hne : r ≠ st.length := Nat.ne_of_lt hr
    have h0 : (st ++ [orig]).get? r = some orig := by
      rw [List.get?_append hr]; exact hget
    simp only [deployTransformStore, hget] at h
    split at h
    · exact Except.noConfusion h
    next st3 heq3 =>
      have h3 : st3.get? r = some orig :=
        (addTraefikLabelsRef_get?_ne heq3 hne).trans h0
      split at h
      · exact Except.noConfusion h
      next st5 heq5 =>
        have h5 : st5.get? r = some orig := by
          by_cases hp : port ≠ "80"
          · simp only [if_pos hp] at heq5
            cases envFile with
            | none =>
              obtain rfl : overridePortLabelRef st3 st.length svc port = st5 :=
                Except.ok.inj heq5
              exact (overridePortLabelRef_get?_ne st3 st.length svc port hne).trans h3
            | some f =>
              refine (addEnvFileRef_get?_ne heq5 hne).trans ?_
              exact (overridePortLabelRef_get?_ne st3 st.length svc port hne).trans h3
          · simp only [if_neg hp] at heq5
            cases envFile with
            | none => obtain rfl : st3 = st5 := Except.ok.inj heq5; exact h3
            | some f => exact (addEnvFileRef_get?_ne heq5 hne).trans h3
        split at h
        · exact Except.noConfusion h
        next st6 heq6 =>
          obtain ⟨rfl, rfl⟩ : st6 = st2 ∧ st.length = r2 := by
            have := Except.ok.inj h
            exact ⟨congrArg Prod.fst this, congrArg Prod.snd this⟩
          exact ⟨(addTraefikNetworkRef_get?_ne heq6 hne).trans h5, Ne.symm hne⟩

/-- The `web` service after the full deploy transform phase with domain
`d`, default port and no env file. -/
def scenarioSvcDeployed : Service :=
  { image := some "x", labels := some (.seq (traefikLabels "web" "d")),
    networks := some (.seq ["traefik"]) }

/-- The scenario document after the full deploy transform phase. -/
def scenarioDocDeployed : ComposeData :=
  { services := some [("web", scenarioSvcDeployed)],
    networks := some [("traefik", { external := some true })] }

/-- Witness for C9: a concrete in-place call and a concrete deploy
transform phase over the scenario document. -/
theorem c9_witness :
    (∃ d d2, ([scenarioDoc] : Store).get? 0 = some d ∧
      addTraefikLabels d "web" "d" = .ok d2 ∧
      ([scenarioDocOnce] : Store).get? 0 = some d2) ∧
    (([scenarioDoc, scenarioDocDeployed] : Store).get? 0 = some scenarioDoc ∧
      (1 : Nat) ≠ 0) :=
  ⟨c9_transforms_mutate_clone_protects.1 [scenarioDoc] 0 "web" "d" [scenarioDocOnce] rfl,
   c9_transforms_mutate_clone_protects.2 [scenarioDoc] 0 scenarioDoc "web" "d" "80" none
     [scenarioDoc, scenarioDocDeployed] 1 rfl rfl⟩

/-- C10: on an existing file whose content the YAML library parses to
null (an empty or comment-only document does), `parseCompose` returns
that null untouched, and `getServices` applied to it throws a TypeError
from the property access on null — not the ValidationError of the
documented taxonomy, so `getServices` is not total over the range of
`parseCompose`. -/
theorem c10_getServices_null_typeError (yaml : String → Option ComposeData)
    (hempty : yaml "" = none) :
    parseComposeWith yaml true "" = .ok none ∧
    getServicesJS none
      = .error (.typeError "Cannot read properties of null (reading services)") ∧
    ∀ msg, getServicesJS none ≠ .error (.error msg) := by
  refine ⟨by simp [parseComposeWith, hempty], rfl, ?_⟩
  intro msg h
  exact JSError.noConfusion (Except.error.inj h)

/-- Witness for C10 at a YAML oracle sending every content to null. -/
theorem c10_witness :
    parseComposeWith (fun _ => none) true "" = .ok none ∧
    getServicesJS none
      = .error (.typeError "Cannot read properties of null (reading services)") :=
  ⟨(c10_getServices_null_typeError (fun _ => none) rfl).1,
   (c10_getServices_null_typeError (fun _ => none) rfl).2.1⟩

/-- Witness for C3 at a concrete address. -/
theorem c3_witness : vpsIpValidate "10.0.0.1" = true ↔ strictDottedQuad "10.0.0.1" :=
  c3_address_validation_amended "10.0.0.1"

/-- Witness for C5 at the default ignore set. -/
theorem c5_witness : tarFilter defaultIgnore ("hackerrun-deploy.tar.gz").data = false :=
  c5_archive_excludes_own_output defaultIgnore

/-- Witness for C6 at concrete gitignore contents. -/
theorem c6_witness :
    (".env").data ∉ buildIgnore (some "node_modules\n.env") ∧
    tarFilter (buildIgnore (some ".env")) (".env").data = true :=
  ⟨c6_env_force_include_amended.1 (some "node_modules\n.env"),
   c6_env_force_include_amended.2⟩

/-- Witness for C7 at a concrete failing bring-up. -/
theorem c7_witness :
    DeployEv.useContext "default" ∈ (deployAfterSwitch "default" true false true).events ∧
    (deployAfterSwitch "default" true false true).exitCode = (if false then 0 else 1) :=
  c7_deploy_restores_context "default" true false true
